import Mathlib

/-!
Verification development for the MySQLWrapper repository: a shallow
embedding of the Value model, result decoding, prepared-statement
binding, the connection pool, transactions and the batch-insert builder,
with theorems settling the specification's claims about them.

The native MySQL client library is an external collaborator of this
repository; where its behaviour matters (parameter-count checking,
affected-row reporting for multi-row INSERT) it is modelled from the
driver interface the spec describes, and each such model is marked in
its doc comment.
-/

/-! ## Value model (MySQLWrapper.h, `using Value = std::variant<...>`) -/

/-- The closed tagged union over column values and bind parameters:
`std::variant<std::nullptr_t, int, long long, double, std::string,
std::vector<uint8_t>>`.  The `double` payload is carried as its IEEE-754
bit pattern (a `Nat`); no floating-point arithmetic is performed on it
anywhere in the embedded code. -/
inductive Value where
  | null : Value
  | int32 (v : Int) : Value
  | int64 (v : Int) : Value
  | float64 (bits : Nat) : Value
  | text (s : String) : Value
  | bytes (b : List Nat) : Value
deriving DecidableEq, Repr

/-- Variant tags of `Value`, used to state which alternative a decode
path selects. -/
inductive VTag where
  | null | int32 | int64 | float64 | text | bytes
deriving DecidableEq, Repr

/-- The tag of the variant a `Value` holds. -/
def Value.tag : Value → VTag
  | .null => .null
  | .int32 _ => .int32
  | .int64 _ => .int64
  | .float64 _ => .float64
  | .text _ => .text
  | .bytes _ => .bytes

/-- A row: `using Row = std::unordered_map<std::string, Value>`,
modelled as an association list from column name to `Value`. -/
def Row := List (String × Value)
deriving DecidableEq, Repr

/-! ## Result decoding variant selection
(`Connection::query` and `PreparedStatement::executeQuery`) -/

/-- The MySQL field types that appear in the two decode switches, plus
representatives of the types both switches send to their `default:`
branch (date/time, JSON, char/varchar, blob, NEWDECIMAL). -/
inductive FieldType where
  | tiny | short | long | int24 | longlong
  | float | double | decimal | newdecimal
  | date | datetime | json | varString | string | blob
deriving DecidableEq, Repr

/-- Variant selected for a non-NULL column by the text-protocol decode
switch in `Connection::query`: TINY/SHORT/LONG/INT24 are parsed with
`std::stoi` (→ `int`), LONGLONG with `std::stoll` (→ `long long`),
FLOAT/DOUBLE/DECIMAL with `std::stod` (→ `double`), and every other
type becomes a length-delimited `std::string`. -/
def textVariant : FieldType → VTag
  | .tiny => .int32
  | .short => .int32
  | .long => .int32
  | .int24 => .int32
  | .longlong => .int64
  | .float => .float64
  | .double => .float64
  | .decimal => .float64
  | _ => .text

/-- Variant selected for a non-NULL column by the binary/prepared decode
switch in `PreparedStatement::executeQuery`: LONG is read as `int`,
LONGLONG as `long long`, FLOAT/DOUBLE as `double`, and every other type
(including TINY, SHORT, INT24 and DECIMAL) becomes a length-delimited
`std::string`. -/
def binaryVariant : FieldType → VTag
  | .long => .int32
  | .longlong => .int64
  | .float => .float64
  | .double => .float64
  | _ => .text

/-- Variant selection written from the spec's words, for comparison with
the two source decode paths: integer family → Int32 or Int64 by declared
width, floating family → Float64, everything else — including decimal,
date/time, JSON and char/varchar — → Text. -/
def specVariant : FieldType → VTag
  | .tiny => .int32
  | .short => .int32
  | .long => .int32
  | .int24 => .int32
  | .longlong => .int64
  | .float => .float64
  | .double => .float64
  | _ => .text

/-- Full text-path column decode including the NULL check: the driver
reporting the cell NULL (`mysqlRow[i] == nullptr`) selects the Null
variant before the type switch runs. -/
def decodeTextTag (isNull : Bool) (t : FieldType) : VTag :=
  if isNull then .null else textVariant t

/-- Full binary-path column decode including the NULL indicator
(`isNulls[i]`) checked before the type switch runs. -/
def decodeBinaryTag (isNull : Bool) (t : FieldType) : VTag :=
  if isNull then .null else binaryVariant t

/-! ## Value accessors (`get<T>` / `getOpt<T>` in MySQLWrapper.h) -/

/-- `get<int>`: returns the held `int` or throws
`std::runtime_error("Type mismatch in get()")`. -/
def getInt : Value → Except String Int
  | .int32 v => .ok v
  | _ => .error "Type mismatch in get()"

/-- `getOpt<int>`: returns the held `int` or `std::nullopt`. -/
def getOptInt : Value → Option Int
  | .int32 v => some v
  | _ => none

/-- `get<long long>`. -/
def getInt64 : Value → Except String Int
  | .int64 v => .ok v
  | _ => .error "Type mismatch in get()"

/-- `getOpt<long long>`. -/
def getOptInt64 : Value → Option Int
  | .int64 v => some v
  | _ => none

/-- `get<double>` (payload carried as IEEE-754 bits). -/
def getFloat64 : Value → Except String Nat
  | .float64 v => .ok v
  | _ => .error "Type mismatch in get()"

/-- `getOpt<double>`. -/
def getOptFloat64 : Value → Option Nat
  | .float64 v => some v
  | _ => none

/-- `get<std::string>`. -/
def getText : Value → Except String String
  | .text v => .ok v
  | _ => .error "Type mismatch in get()"

/-- `getOpt<std::string>`. -/
def getOptText : Value → Option String
  | .text v => some v
  | _ => none

/-- `get<std::vector<uint8_t>>`. -/
def getBytes : Value → Except String (List Nat)
  | .bytes v => .ok v
  | _ => .error "Type mismatch in get()"

/-- `getOpt<std::vector<uint8_t>>`. -/
def getOptBytes : Value → Option (List Nat)
  | .bytes v => some v
  | _ => none

/-- `get<std::nullptr_t>`. -/
def getNull : Value → Except String Unit
  | .null => .ok ()
  | _ => .error "Type mismatch in get()"

/-- `getOpt<std::nullptr_t>`. -/
def getOptNull : Value → Option Unit
  | .null => some ()
  | _ => none

/-! ## QueryResult (MySQLWrapper.h) -/

/-- `QueryResult`: a ResultSet (`std::vector<Row>`) plus affected-row
count and last insert id. -/
structure QueryResult where
  data : List Row
  affectedRows : Nat := 0
  lastInsertId : Nat := 0

/-- `QueryResult::size()`: `data_.size()`. -/
def QueryResult.size (r : QueryResult) : Nat := r.data.length

/-- `QueryResult::empty()`: `data_.empty()`. -/
def QueryResult.isEmptyResult (r : QueryResult) : Bool := r.data.isEmpty

/-- `QueryResult::operator[]`: `data_[index]` — `std::vector::operator[]`
performs no bounds check, so the access is defined only under the
precondition `index < size()`, carried here as the proof argument. -/
def QueryResult.opIndex (r : QueryResult) (i : Nat) (h : i < r.size) : Row :=
  r.data.get ⟨i, h⟩

/-- Checked row lookup used to state what `operator[]` would need to
return for an out-of-range index if the interface offered a checked
access; the source interface does not offer it. -/
def QueryResult.rowAt (r : QueryResult) (i : Nat) : Option Row :=
  r.data.get? i

/-! ## PreparedStatement parameter binding (part_000, lines 49-178) -/

/-- State of a `PreparedStatement`: the parameter count the driver
reported for the compiled SQL (`mysql_stmt_param_count`), the
`params_` vector of bind descriptors, and the `currentParam_` cursor.
A bind descriptor is modelled as the bound `Value` (the MYSQL_BIND's
type tag and buffer follow from the variant). -/
structure PSState where
  paramCount : Nat
  params : List Value
  currentParam : Nat

/-- A freshly constructed statement: empty `params_`, cursor zero. -/
def initPS (paramCount : Nat) : PSState :=
  { paramCount := paramCount, params := [], currentParam := 0 }

/-- One `bind` call: `ensureCapacity()` appends a zeroed descriptor when
`currentParam_ >= params_.size()`, the descriptor at `currentParam_` is
filled, and `currentParam_` is incremented.  The zeroed placeholder is
modelled as `Value.null` (it is always immediately overwritten). -/
def bindOne (s : PSState) (v : Value) : PSState :=
  let ps := if s.currentParam ≥ s.params.length then s.params ++ [Value.null] else s.params
  { s with params := ps.set s.currentParam v, currentParam := s.currentParam + 1 }

/-- A sequence of `bind` calls in order. -/
def bindMany (s : PSState) (vs : List Value) : PSState :=
  vs.foldl bindOne s

/-- Statement-layer errors surfaced by `PreparedStatement` execution:
the throw after `mysql_stmt_bind_param` fails, and the throw after
`mysql_stmt_execute` fails. -/
inductive StmtErr where
  | bindMismatch
  | executeFailed
deriving DecidableEq, Repr

/-- Modelled driver behaviour (`mysql_stmt_bind_param`): binding an
array of descriptors succeeds exactly when the array length matches the
statement's parameter count — the spec's driver boundary reports a
parameter-count mismatch otherwise. -/
def driverBindOk (paramCount bound : Nat) : Bool := bound == paramCount

/-- Modelled driver behaviour (`mysql_stmt_execute`): execution succeeds
when the statement has no parameters or a full bind was supplied; with
parameters left unbound the driver reports a no-data-for-parameters
error. -/
def driverExecOk (paramCount : Nat) (bindDone : Bool) : Bool :=
  paramCount == 0 || bindDone

/-- `PreparedStatement::execute()` up to result decoding: skip the bind
when `params_` is empty, otherwise bind (throwing on driver failure),
then execute (throwing on driver failure). -/
def psExecute (s : PSState) : Except StmtErr Unit :=
  if s.params.isEmpty then
    if driverExecOk s.paramCount false then .ok () else .error .executeFailed
  else
    if driverBindOk s.paramCount s.params.length then
      if driverExecOk s.paramCount true then .ok () else .error .executeFailed
    else .error .bindMismatch

/-- `PreparedStatement::executeUpdate()`: same bind-then-execute
structure, returning `mysql_stmt_affected_rows`; the affected-row count
the driver would report on success is passed in. -/
def psExecuteUpdate (s : PSState) (affectedIfOk : Nat) : Except StmtErr Nat :=
  if s.params.isEmpty then
    if driverExecOk s.paramCount false then .ok affectedIfOk else .error .executeFailed
  else
    if driverBindOk s.paramCount s.params.length then
      if driverExecOk s.paramCount true then .ok affectedIfOk else .error .executeFailed
    else .error .bindMismatch

/-! ## ConnectionPool (part_000, lines 476-551) -/

/-- A pooled connection: an identity, the liveness the driver's
`mysql_ping` would report, and the in-transaction flag. -/
structure Conn where
  id : Nat
  alive : Bool
  inTx : Bool
deriving DecidableEq, Repr

/-- `Connection::ping()`: the driver's liveness probe. -/
def Conn.ping (c : Conn) : Bool := c.alive

/-- Pool state: the `pool_` queue of idle connections (front = head),
the `stopped_` flag, and the configured `maxPoolSize` (an `int` in the
source). -/
structure PoolSt where
  pool : List Conn
  stopped : Bool
  maxPoolSize : Int
deriving DecidableEq, Repr

/-- The `static_cast<size_t>` applied to `config_.maxPoolSize` in
`release`: conversion of a C++ `int` to the 64-bit unsigned `size_t`. -/
def intToSizeT (i : Int) : Nat := (i % (2 : Int) ^ 64).toNat

/-- The predicate of the condition-variable wait in `acquire`:
`!pool_.empty() || stopped_`.  A blocked acquirer resumes exactly when
this becomes true. -/
def waitPredicate (s : PoolSt) : Bool := !s.pool.isEmpty || s.stopped

/-- Pool-layer errors: the throw on a stopped pool and the throw when
the replacement connection fails to connect. -/
inductive PoolErr where
  | poolClosed
  | connectionUnavailable
deriving DecidableEq, Repr

/-- Outcome of one `acquire` call; `blocked` is the state in which the
condition-variable predicate is false and the caller is still waiting. -/
inductive AcquireOutcome where
  | blocked
  | failed (e : PoolErr)
  | ok (c : Conn)
deriving DecidableEq, Repr

/-- `ConnectionPool::acquire()`: wait until the pool is non-empty or
stopped; throw pool-closed if stopped; pop the front connection; if its
`ping()` fails, discard it and create+connect a fresh replacement from
the stored config (throwing connection-unavailable if the connect
fails).  The fresh connection's id and its connect outcome are the
environment's choice; a successful connect yields a live session. -/
def acquireStep (s : PoolSt) (freshId : Nat) (freshConnectOk : Bool) :
    AcquireOutcome × PoolSt :=
  if !waitPredicate s then (.blocked, s)
  else if s.stopped then (.failed .poolClosed, s)
  else
    match s.pool with
    | [] => (.blocked, s)
    | c :: rest =>
      if c.ping then (.ok c, { s with pool := rest })
      else if freshConnectOk then
        (.ok { id := freshId, alive := true, inTx := false }, { s with pool := rest })
      else (.failed .connectionUnavailable, { s with pool := rest })

/-- `Connection::rollback()` as invoked best-effort from `release`: on
driver success the in-transaction flag is cleared; on failure the
exception is swallowed by the `catch (...) {}` and the flag is left as
the failed `execute` left it. -/
def rollbackBestEffort (c : Conn) (rollbackOk : Bool) : Conn :=
  if rollbackOk then { c with inTx := false } else c

/-- `ConnectionPool::release(conn)`: a null connection is a no-op; a
mid-transaction connection is best-effort rolled back; then the
connection is pushed onto the idle queue only when
`pool_.size() < static_cast<size_t>(config_.maxPoolSize)`, and is
dropped otherwise. -/
def releaseConn (s : PoolSt) (conn : Option Conn) (rollbackOk : Bool) : PoolSt :=
  match conn with
  | none => s
  | some c =>
    let c := if c.inTx then rollbackBestEffort c rollbackOk else c
    if s.pool.length < intToSizeT s.maxPoolSize then
      { s with pool := s.pool ++ [c] }
    else s

/-- `ConnectionPool::size()`: `pool_.size()` — the idle-set cardinality. -/
def poolSize (s : PoolSt) : Nat := s.pool.length

/-- One acquire/release interleaving step, with the environment's
nondeterminism (fresh-connection id, connect and rollback outcomes)
recorded in the operation. -/
inductive PoolOp where
  | acquire (freshId : Nat) (freshConnectOk : Bool)
  | release (conn : Option Conn) (rollbackOk : Bool)
deriving DecidableEq, Repr

/-- Effect of one pool operation on the pool state. -/
def poolStep (s : PoolSt) : PoolOp → PoolSt
  | .acquire freshId ok => (acquireStep s freshId ok).2
  | .release conn rollbackOk => releaseConn s conn rollbackOk

/-- A whole interleaving of acquire and release calls. -/
def runPool (s : PoolSt) (ops : List PoolOp) : PoolSt :=
  ops.foldl poolStep s

/-- `ConnectionPool::initialize()`: called from the constructor, it
attempts `config_.poolSize` create+connect operations and pushes each
connection whose `connect()` succeeds; failures are silently omitted.
The i-th connect outcome is read from `connectResults`. -/
def initPool (poolSizeCfg : Int) (maxPoolSizeCfg : Int)
    (connectResults : List Bool) : PoolSt :=
  { pool := (List.range poolSizeCfg.toNat).filterMap fun i =>
      if connectResults.getD i false then
        some { id := i, alive := true, inTx := false }
      else none
    stopped := false
    maxPoolSize := maxPoolSizeCfg }

/-- `ConnectionPool::~ConnectionPool()`: sets `stopped_` under the lock
and wakes all waiters (`cv_.notify_all()`). -/
def shutdownPool (s : PoolSt) : PoolSt := { s with stopped := true }

/-! ## Connection in-transaction flag (part_000, lines 307-473) -/

/-- One public `Connection` operation together with the outcome the
driver gives it; the Bool on fallible operations is whether the
underlying driver call (or the `execute` of the transaction statement)
succeeds — on failure the member function throws. -/
inductive ConnOp where
  | connectOp (ok : Bool)
  | disconnectOp
  | pingOp (ok : Bool)
  | queryOp (ok : Bool)
  | executeSql (ok : Bool)
  | prepareOp (ok : Bool)
  | escapeOp
  | beginTxOp (ok : Bool)
  | commitOp (ok : Bool)
  | rollbackOp (ok : Bool)
deriving DecidableEq, Repr

/-- Whether the operation is one of `beginTransaction`, `commit`,
`rollback`. -/
def ConnOp.isTxOp : ConnOp → Bool
  | .beginTxOp _ => true
  | .commitOp _ => true
  | .rollbackOp _ => true
  | _ => false

/-- Effect of one `Connection` operation on the `inTransaction_` flag:
`beginTransaction` runs `execute("START TRANSACTION")` and only then
sets the flag; `commit`/`rollback` run `execute("COMMIT"/"ROLLBACK")`
and only then clear it — when the `execute` throws, the assignment after
it never runs and the flag is unchanged.  No other member function
touches the flag. -/
def connStep (inTx : Bool) : ConnOp → Bool
  | .beginTxOp ok => if ok then true else inTx
  | .commitOp ok => if ok then false else inTx
  | .rollbackOp ok => if ok then false else inTx
  | _ => inTx

/-! ## Database::Transaction (part_000, lines 677-705) -/

/-- A `commit()` or `rollback()` call on a `Database::Transaction`,
with the driver outcome of the underlying `Connection` call; on driver
failure the call throws before `committed_ = true` runs. -/
inductive TxOp where
  | commitCall (ok : Bool)
  | rollbackCall (ok : Bool)
deriving DecidableEq, Repr

/-- Effect of one Transaction call on the `committed_` flag. -/
def txApply (committed : Bool) : TxOp → Bool
  | .commitCall ok => if ok then true else committed
  | .rollbackCall ok => if ok then true else committed

/-- The `committed_` flag after a sequence of commit/rollback calls,
starting from its initial `false`. -/
def txRun (ops : List TxOp) : Bool :=
  ops.foldl txApply false

/-- Observable effect of running `~Transaction()`. -/
structure DtorEffect where
  rollbackAttempted : Bool
  releaseCalled : Bool
  escaped : Bool
deriving DecidableEq, Repr

/-- `Database::Transaction::~Transaction()`: when `committed_` is false
it calls `conn_->rollback()` inside `try { } catch (...) {}` — a failing
rollback is swallowed — and in every case it then calls
`db_->pool_->release(conn_)`, which never throws.  No exception escapes
the destructor. -/
def txDestruct (committed : Bool) (rollbackFails : Bool) : DtorEffect :=
  if committed then
    { rollbackAttempted := false, releaseCalled := true, escaped := false }
  else
    { rollbackAttempted := true, releaseCalled := true, escaped := false }

/-! ## Database::batchInsert (MySQLWrapper.h, lines 243-280) -/

/-- `Database::join(strings, delimiter)`: empty input gives the empty
string; otherwise each element is appended, followed by the delimiter
except after the last. -/
def dbJoin : List String → String → String
  | [], _ => ""
  | [s], _ => s
  | s :: rest, d => s ++ d ++ dbJoin rest d

/-- Number of occurrences of a character in a string. -/
def countChar (c : Char) (s : String) : Nat := s.data.count c

/-- One `"(?, ?, ..., ?)"` placeholder group with one `?` per column,
as built by the inner loop of `batchInsert`. -/
def placeholderGroup (numColumns : Nat) : String :=
  "(" ++ dbJoin (List.replicate numColumns "?") ", " ++ ")"

/-- The single INSERT statement `batchInsert` builds:
`INSERT INTO <table> (<c1>, <c2>, ...) VALUES <group>, <group>, ...`
with one placeholder group per input row.  The column-list loop and the
placeholder-list `join` both produce comma-space separated
concatenation. -/
def batchInsertSQL (table : String) (columns : List String) (numRows : Nat) : String :=
  "INSERT INTO " ++ table ++ " (" ++ dbJoin columns ", " ++ ") VALUES " ++
    dbJoin (List.replicate numRows (placeholderGroup columns.length)) ", "

/-- Modelled driver behaviour: the parameter count
`mysql_stmt_param_count` reports for a compiled statement is the number
of `?` placeholders in its SQL text. -/
def stmtParamCount (sql : String) : Nat := countChar '?' sql

/-- Modelled driver behaviour: a multi-row INSERT of `n` VALUES groups
reports `n` affected rows, absent trigger side effects. -/
def driverInsertAffected (n : Nat) : Nat := n

/-- The one statement a non-empty `batchInsert` prepares and executes. -/
structure BatchCall where
  sql : String
  binds : List Value
deriving DecidableEq, Repr

/-- `Database::batchInsert(table, columns, data)`: empty input returns 0
before touching the database; otherwise it builds the single multi-row
INSERT, binds every cell of every row in row-major order
(`for (row : data) for (value : row) stmt.bind(value)`), and runs
`executeUpdate` once.  Returns the `executeUpdate` result alongside the
one prepared call (`none` when no database operation was performed). -/
def batchInsert (table : String) (columns : List String)
    (rows : List (List Value)) : Except StmtErr Nat × Option BatchCall :=
  if rows.isEmpty then (.ok 0, none)
  else
    let sql := batchInsertSQL table columns rows.length
    let binds := rows.flatten
    let s := bindMany (initPS (stmtParamCount sql)) binds
    (psExecuteUpdate s (driverInsertAffected rows.length), some ⟨sql, binds⟩)

/-! ## Theorems -/

/-- C9: for every `Value` and every type `T` in the closed variant set,
`get<T>` returns the held value exactly when the variant holds a `T` and
throws the type-mismatch error otherwise, while `getOpt<T>` returns the
held value exactly in the same cases and `std::nullopt` otherwise — the
safe accessor is absent precisely when the unsafe one fails. -/
theorem get_getOpt_accessors (v : Value) :
    (∀ x, getInt v = .ok x ↔ v = .int32 x) ∧
    (∀ x, getOptInt v = some x ↔ v = .int32 x) ∧
    (getOptInt v = none ↔ getInt v = .error "Type mismatch in get()") ∧
    (∀ x, getInt64 v = .ok x ↔ v = .int64 x) ∧
    (∀ x, getOptInt64 v = some x ↔ v = .int64 x) ∧
    (getOptInt64 v = none ↔ getInt64 v = .error "Type mismatch in get()") ∧
    (∀ x, getFloat64 v = .ok x ↔ v = .float64 x) ∧
    (∀ x, getOptFloat64 v = some x ↔ v = .float64 x) ∧
    (getOptFloat64 v = none ↔ getFloat64 v = .error "Type mismatch in get()") ∧
    (∀ x, getText v = .ok x ↔ v = .text x) ∧
    (∀ x, getOptText v = some x ↔ v = .text x) ∧
    (getOptText v = none ↔ getText v = .error "Type mismatch in get()") ∧
    (∀ x, getBytes v = .ok x ↔ v = .bytes x) ∧
    (∀ x, getOptBytes v = some x ↔ v = .bytes x) ∧
    (getOptBytes v = none ↔ getBytes v = .error "Type mismatch in get()") ∧
    (getNull v = .ok () ↔ v = .null) ∧
    (getOptNull v = some () ↔ v = .null) ∧
    (getOptNull v = none ↔ getNull v = .error "Type mismatch in get()") := by
  cases v <;>
    simp [getInt, getOptInt, getInt64, getOptInt64, getFloat64, getOptFloat64,
      getText, getOptText, getBytes, getOptBytes, getNull, getOptNull]

/-- C10: `QueryResult::operator[]` is the unchecked `std::vector` access:
it is defined only under the precondition `i < size()`, where it returns
the i-th row, and for an out-of-range index the interface has no row to
return — the checked lookup is `none` there and the unchecked access
requires the in-bounds proof. -/
theorem opIndex_unchecked (r : QueryResult) (i : Nat) :
    (∀ h : i < r.size, r.rowAt i = some (r.opIndex i h)) ∧
    (r.size ≤ i → r.rowAt i = none) := by
  constructor
  · intro h
    simp [QueryResult.rowAt, QueryResult.opIndex, List.get?_eq_get h]
  · intro h
    exact List.get?_eq_none.mpr h

/-- Witness for C10 at a one-row result: index 0 is in bounds and the
access returns that row; index 5 is out of range and the checked lookup
is absent. -/
theorem opIndex_unchecked_witness :
    QueryResult.rowAt ⟨[[("a", Value.int32 1)]], 0, 0⟩ 0 =
      some (QueryResult.opIndex ⟨[[("a", Value.int32 1)]], 0, 0⟩ 0 (by decide)) ∧
    QueryResult.rowAt ⟨[[("a", Value.int32 1)]], 0, 0⟩ 5 = none :=
  ⟨(opIndex_unchecked ⟨[[("a", Value.int32 1)]], 0, 0⟩ 0).1 (by decide),
   (opIndex_unchecked ⟨[[("a", Value.int32 1)]], 0, 0⟩ 5).2 (by decide)⟩

/-- C5: once pool shutdown is signaled (`stopped_` set, all waiters
woken), a blocked `acquire` does not stay blocked — the wait predicate
is satisfied — and it fails with pool-closed; moreover every `acquire`
on a pool whose `stopped_` flag is set fails with pool-closed. -/
theorem acquire_after_shutdown (s : PoolSt) (freshId : Nat) (freshConnectOk : Bool) :
    waitPredicate (shutdownPool s) = true ∧
    (acquireStep (shutdownPool s) freshId freshConnectOk).1 = .failed .poolClosed ∧
    (∀ s' : PoolSt, s'.stopped = true →
      (acquireStep s' freshId freshConnectOk).1 = .failed .poolClosed) := by
  refine ⟨by simp [waitPredicate, shutdownPool], ?_, ?_⟩
  · simp [acquireStep, waitPredicate, shutdownPool]
  · intro s' hs
    simp [acquireStep, waitPredicate, hs]

/-- Witness for C5: acquiring from a concrete stopped pool fails with
pool-closed. -/
theorem acquire_after_shutdown_witness :
    (acquireStep { pool := [⟨0, true, false⟩], stopped := true, maxPoolSize := 5 } 9 true).1 =
      .failed .poolClosed :=
  (acquire_after_shutdown { pool := [⟨0, true, false⟩], stopped := false, maxPoolSize := 5 }
    9 true).2.2 { pool := [⟨0, true, false⟩], stopped := true, maxPoolSize := 5 } rfl

/-- C3: for every sequence of `commit`/`rollback` calls on a
`Database::Transaction` (each possibly failing in the driver) and every
rollback outcome at destruction time, the destructor always calls
`release` on the borrowed Connection and lets no exception escape; and
when neither `commit()` nor `rollback()` was called, it performs the
implicit rollback. -/
theorem transaction_dtor (ops : List TxOp) (rollbackFails : Bool) :
    (txDestruct (txRun ops) rollbackFails).releaseCalled = true ∧
    (txDestruct (txRun ops) rollbackFails).escaped = false ∧
    (ops = [] → (txDestruct (txRun ops) rollbackFails).rollbackAttempted = true) := by
  refine ⟨?_, ?_, ?_⟩
  · cases txRun ops <;> simp [txDestruct]
  · cases txRun ops <;> simp [txDestruct]
  · intro h
    subst h
    simp [txRun, txDestruct]

/-- Witness for C3: destroying a transaction on which nothing was called,
with the rollback failing, still attempts the rollback, releases the
connection and escapes nothing. -/
theorem transaction_dtor_witness :
    (txDestruct (txRun []) true).releaseCalled = true ∧
    (txDestruct (txRun []) true).escaped = false ∧
    (txDestruct (txRun []) true).rollbackAttempted = true :=
  ⟨(transaction_dtor [] true).1, (transaction_dtor [] true).2.1,
   (transaction_dtor [] true).2.2 rfl⟩

/-- C6 counterexample: a `commit()` whose underlying
`execute("COMMIT")` throws leaves the in-transaction flag set — the flag
is not always reset to false on commit. -/
theorem commit_failure_keeps_flag :
    ¬ connStep true (ConnOp.commitOp false) = false := by decide

/-- C6 (amended): the in-transaction flag is mutated only by
`beginTransaction`, `commit` and `rollback`; `beginTransaction` sets it
to true and `commit`/`rollback` reset it to false when their underlying
`execute` succeeds, while a throwing `execute` leaves the flag
unchanged. -/
theorem inTx_flag_mutation (f : Bool) (op : ConnOp) :
    (op.isTxOp = false → connStep f op = f) ∧
    connStep f (.beginTxOp true) = true ∧
    connStep f (.commitOp true) = false ∧
    connStep f (.rollbackOp true) = false ∧
    connStep f (.beginTxOp false) = f ∧
    connStep f (.commitOp false) = f ∧
    connStep f (.rollbackOp false) = f := by
  cases op <;> simp [connStep, ConnOp.isTxOp]

/-- Witness for C6: a `ping` leaves a set flag set, and successful
transaction statements drive the flag as stated. -/
theorem inTx_flag_mutation_witness :
    connStep true (ConnOp.pingOp true) = true ∧
    connStep true (.commitOp true) = false :=
  ⟨(inTx_flag_mutation true (ConnOp.pingOp true)).1 rfl,
   (inTx_flag_mutation true (ConnOp.pingOp true)).2.2.1⟩

/-- C2 counterexample: at a DECIMAL column the text-protocol path of
`Connection::query` selects Float64 while both the spec's shared mapping
and the binary path of `PreparedStatement::executeQuery` select Text;
at a TINY column the text path selects Int32 while the binary path
selects Text — the two decode paths do not implement one shared
mapping. -/
theorem decode_paths_diverge :
    decodeTextTag false .decimal = .float64 ∧
    decodeBinaryTag false .decimal = .text ∧
    specVariant .decimal = .text ∧
    ¬ decodeTextTag false .decimal = decodeBinaryTag false .decimal ∧
    decodeTextTag false .tiny = .int32 ∧
    decodeBinaryTag false .tiny = .text ∧
    ¬ decodeTextTag false .tiny = decodeBinaryTag false .tiny := by decide

/-- C2 (amended): the text and binary decode paths agree on a result
column exactly when the driver reports it NULL or its declared type is
outside {TINY, SHORT, INT24, DECIMAL}; against the spec's mapping, the
text path diverges only at DECIMAL (parsed to Float64 instead of Text)
and the binary path only at TINY, SHORT and INT24 (Text instead of
Int32). -/
theorem decode_paths_agreement (isNull : Bool) (t : FieldType) :
    (decodeTextTag isNull t = decodeBinaryTag isNull t ↔
      (isNull = true ∨ t ∉ [FieldType.tiny, .short, .int24, .decimal])) ∧
    (textVariant t = specVariant t ↔ t ≠ .decimal) ∧
    (binaryVariant t = specVariant t ↔ t ∉ [FieldType.tiny, .short, .int24]) := by
  cases isNull <;> cases t <;> decide

/-- C4: an `acquire` that pops a Connection whose `ping` probe fails
discards it and synchronously creates+connects a fresh replacement: if
the replacement connects, that fresh live Connection is returned; if it
fails to connect, acquire fails with connection-unavailable; and in
general no `acquire` ever returns a Connection whose liveness probe
failed. -/
theorem acquire_probe_and_replace (s : PoolSt) (c : Conn) (rest : List Conn)
    (freshId : Nat) (freshConnectOk : Bool)
    (hrun : s.stopped = false) (hpool : s.pool = c :: rest) (hdead : c.ping = false) :
    (freshConnectOk = true →
      acquireStep s freshId freshConnectOk =
        (.ok { id := freshId, alive := true, inTx := false }, { s with pool := rest })) ∧
    (freshConnectOk = false →
      acquireStep s freshId freshConnectOk =
        (.failed .connectionUnavailable, { s with pool := rest })) ∧
    (∀ s' : PoolSt, ∀ fid : Nat, ∀ ok : Bool, ∀ c' : Conn,
      (acquireStep s' fid ok).1 = .ok c' → c'.ping = true) := by
  refine ⟨?_, ?_, ?_⟩
  · intro hok
    subst hok
    simp [acquireStep, waitPredicate, hrun, hpool, hdead]
  · intro hok
    subst hok
    simp [acquireStep, waitPredicate, hrun, hpool, hdead]
  · intro s' fid ok c' h
    rcases s' with ⟨pool, stopped, maxCfg⟩
    cases stopped
    · cases pool with
      | nil => simp [acquireStep, waitPredicate] at h
      | cons hd tl =>
        by_cases hp : hd.ping = true
        · simp [acquireStep, waitPredicate, hp] at h
          rw [← h]
          exact hp
        · cases ok
          · simp [acquireStep, waitPredicate, hp] at h
          · simp [acquireStep, waitPredicate, hp] at h
            rw [← h]
            rfl
    · simp [acquireStep, waitPredicate] at h

/-- Witness for C4: from a pool whose only idle Connection is dead, a
succeeding replacement is returned live, and a failing replacement makes
acquire fail with connection-unavailable. -/
theorem acquire_probe_and_replace_witness :
    acquireStep { pool := [⟨0, false, false⟩], stopped := false, maxPoolSize := 5 } 9 true =
      (.ok ⟨9, true, false⟩, { pool := [], stopped := false, maxPoolSize := 5 }) ∧
    acquireStep { pool := [⟨0, false, false⟩], stopped := false, maxPoolSize := 5 } 9 false =
      (.failed .connectionUnavailable, { pool := [], stopped := false, maxPoolSize := 5 }) :=
  ⟨(acquire_probe_and_replace { pool := [⟨0, false, false⟩], stopped := false, maxPoolSize := 5 }
      ⟨0, false, false⟩ [] 9 true rfl rfl rfl).1 rfl,
   (acquire_probe_and_replace { pool := [⟨0, false, false⟩], stopped := false, maxPoolSize := 5 }
      ⟨0, false, false⟩ [] 9 false rfl rfl rfl).2.1 rfl⟩

/-- Helper: one `acquire` never grows the idle set and never changes the
configured maximum. -/
theorem acquireStep_shrinks (s : PoolSt) (fid : Nat) (ok : Bool) :
    (acquireStep s fid ok).2.maxPoolSize = s.maxPoolSize ∧
    (acquireStep s fid ok).2.pool.length ≤ s.pool.length := by
  rcases s with ⟨pool, stopped, maxCfg⟩
  cases stopped <;> cases pool <;> simp [acquireStep, waitPredicate]
  case false.cons c rest =>
    by_cases hc : c.ping = true <;> cases ok <;> simp [hc, Nat.le_succ]

/-- Helper: `release` keeps the idle set at or below the configured
maximum whenever it already was, and never changes the maximum. -/
theorem releaseConn_bounded (s : PoolSt) (conn : Option Conn) (rb : Bool)
    (h : s.pool.length ≤ intToSizeT s.maxPoolSize) :
    (releaseConn s conn rb).maxPoolSize = s.maxPoolSize ∧
    (releaseConn s conn rb).pool.length ≤ intToSizeT s.maxPoolSize := by
  cases conn with
  | none => exact ⟨rfl, h⟩
  | some c =>
    by_cases hlt : s.pool.length < intToSizeT s.maxPoolSize
    · refine ⟨by simp [releaseConn, hlt], ?_⟩
      simp [releaseConn, hlt]
      omega
    · exact ⟨by simp [releaseConn, hlt], by simpa [releaseConn, hlt] using h⟩

/-- C1 counterexample: a pool constructed with `poolSize = 2` and
`maxPoolSize = 1` (both connects succeeding) already holds two idle
Connections; the first `release` after construction drops its
Connection, completes, and `size()` is still 2 > maxPoolSize — the
claimed bound does not hold after that release. -/
theorem pool_size_after_release_cex :
    ¬ poolSize (poolStep (initPool 2 1 [true, true])
        (.release (some ⟨7, true, false⟩) true)) ≤
      intToSizeT (initPool 2 1 [true, true]).maxPoolSize := by decide

/-- C1 (amended): provided the idle set starts at or below
`maxPoolSize` (as with any configuration where `poolSize ≤ maxPoolSize`),
every interleaving of acquire and release calls keeps `size()` at most
`maxPoolSize` — in particular immediately after every release; release
enqueues the returned Connection only when the idle set holds fewer than
`maxPoolSize` connections (then growing it by one) and otherwise leaves
the pool state unchanged, dropping the connection. -/
theorem pool_size_invariant (s : PoolSt) (ops : List PoolOp)
    (hinit : poolSize s ≤ intToSizeT s.maxPoolSize) :
    poolSize (runPool s ops) ≤ intToSizeT s.maxPoolSize ∧
    (∀ s' : PoolSt, ∀ c : Conn, ∀ rb : Bool,
      intToSizeT s'.maxPoolSize ≤ poolSize s' → releaseConn s' (some c) rb = s') ∧
    (∀ s' : PoolSt, ∀ c : Conn, ∀ rb : Bool,
      poolSize s' < intToSizeT s'.maxPoolSize →
        poolSize (releaseConn s' (some c) rb) = poolSize s' + 1) := by
  refine ⟨?_, ?_, ?_⟩
  · induction ops generalizing s with
    | nil => exact hinit
    | cons op ops ih =>
      have hstep : poolSize (poolStep s op) ≤ intToSizeT (poolStep s op).maxPoolSize ∧
          (poolStep s op).maxPoolSize = s.maxPoolSize := by
        cases op with
        | acquire fid ok =>
          have h2 := acquireStep_shrinks s fid ok
          simp only [poolStep]
          exact ⟨by rw [h2.1]; exact le_trans h2.2 hinit, h2.1⟩
        | release conn rb =>
          have h2 := releaseConn_bounded s conn rb hinit
          simp only [poolStep]
          exact ⟨by rw [h2.1]; exact h2.2, h2.1⟩
      have := ih (poolStep s op) hstep.1
      rw [hstep.2] at this
      exact this
  · intro s' c rb hge
    have hnlt : ¬ s'.pool.length < intToSizeT s'.maxPoolSize := Nat.not_lt.mpr hge
    simp [releaseConn, hnlt]
  · intro s' c rb hlt
    have hlt' : s'.pool.length < intToSizeT s'.maxPoolSize := hlt
    simp [poolSize, releaseConn, hlt']

/-- Witness for C1 (amended): a pool starting with two idle Connections
under `maxPoolSize = 5` stays within bound across an
acquire-release-release interleaving. -/
theorem pool_size_invariant_witness :
    poolSize (runPool (initPool 2 5 [true, true])
      [.acquire 9 true, .release (some ⟨9, true, false⟩) true,
       .release (some ⟨8, true, true⟩) false]) ≤
      intToSizeT (initPool 2 5 [true, true]).maxPoolSize :=
  (pool_size_invariant (initPool 2 5 [true, true])
    [.acquire 9 true, .release (some ⟨9, true, false⟩) true,
     .release (some ⟨8, true, true⟩) false] (by decide)).1

/-- Helper: a `bind` call at the append position (cursor equal to the
`params_` size, as holds throughout normal use) appends its descriptor
as the next positional slot. -/
theorem bindOne_at_end (s : PSState) (v : Value) (h : s.currentParam = s.params.length) :
    bindOne s v =
      { s with params := s.params ++ [v], currentParam := s.currentParam + 1 } := by
  have hset : (s.params ++ [Value.null]).set s.params.length v = s.params ++ [v] := by
    rw [List.set_append]
    simp
  simp [bindOne, h, hset]

/-- Helper: starting from a cursor equal to the `params_` size, a
sequence of `bind` calls appends its descriptors in call order and
advances the cursor by their number; the parameter count never
changes. -/
theorem bindMany_spec (vs : List Value) (s : PSState) (h : s.currentParam = s.params.length) :
    (bindMany s vs).params = s.params ++ vs ∧
    (bindMany s vs).currentParam = s.currentParam + vs.length ∧
    (bindMany s vs).paramCount = s.paramCount := by
  induction vs generalizing s with
  | nil => simp [bindMany]
  | cons v vs ih =>
    have hb := bindOne_at_end s v h
    have h2 : (bindOne s v).currentParam = (bindOne s v).params.length := by
      rw [hb]
      simp [h]
    have hfold : bindMany s (v :: vs) = bindMany (bindOne s v) vs := rfl
    rcases ih (bindOne s v) h2 with ⟨hp, hc, hpc⟩
    rw [hfold]
    refine ⟨?_, ?_, ?_⟩
    · rw [hp, hb]
      simp
    · rw [hc, hb]
      simp
      omega
    · rw [hpc, hb]

/-- Helper: full characterization of bind-then-execute against the
modelled driver, shared by the statement-level and batch-level
theorems. -/
theorem bindExec_spec (P : Nat) (vs : List Value) :
    (bindMany (initPS P) vs).params = vs ∧
    (vs.length = P →
      psExecute (bindMany (initPS P) vs) = .ok () ∧
      ∀ a, psExecuteUpdate (bindMany (initPS P) vs) a = .ok a) ∧
    (vs.length < P →
      psExecute (bindMany (initPS P) vs) =
        .error (if vs.isEmpty then .executeFailed else .bindMismatch) ∧
      ∀ a, psExecuteUpdate (bindMany (initPS P) vs) a =
        .error (if vs.isEmpty then .executeFailed else .bindMismatch)) := by
  rcases bindMany_spec vs (initPS P) (by simp [initPS]) with ⟨hp, hc, hpc⟩
  have hp' : (bindMany (initPS P) vs).params = vs := by
    rw [hp]
    simp [initPS]
  have hpc' : (bindMany (initPS P) vs).paramCount = P := by
    rw [hpc]
    simp [initPS]
  refine ⟨hp', ?_, ?_⟩
  · intro hlen
    constructor
    · cases vs with
      | nil =>
        have hP0 : P = 0 := by simpa using hlen.symm
        subst hP0
        simp [psExecute, hp', hpc', driverExecOk]
      | cons v vs =>
        simp [psExecute, hp', hpc', driverExecOk, driverBindOk, hlen]
    · intro a
      cases vs with
      | nil =>
        have hP0 : P = 0 := by simpa using hlen.symm
        subst hP0
        simp [psExecuteUpdate, hp', hpc', driverExecOk]
      | cons v vs =>
        simp [psExecuteUpdate, hp', hpc', driverExecOk, driverBindOk, hlen]
  · intro hlen
    constructor
    · cases vs with
      | nil =>
        have hP : ¬ P = 0 := by simp at hlen; omega
        simp [psExecute, hp', hpc', driverExecOk, hP]
      | cons v vs =>
        have hne : ¬ (vs.length + 1 = P) := by
          simp at hlen
          omega
        simp [psExecute, hp', hpc', driverBindOk, hne]
    · intro a
      cases vs with
      | nil =>
        have hP : ¬ P = 0 := by simp at hlen; omega
        simp [psExecuteUpdate, hp', hpc', driverExecOk, hP]
      | cons v vs =>
        have hne : ¬ (vs.length + 1 = P) := by
          simp at hlen
          omega
        simp [psExecuteUpdate, hp', hpc', driverBindOk, hne]

/-- C7: for a statement the driver reports as expecting `P` parameters,
the n-th `bind` call fills the n-th positional slot; binding exactly `P`
descriptors and then executing (either `execute` or `executeUpdate`)
succeeds, while binding fewer than `P` and executing fails with the
parameter-count mismatch (the bind-failure throw when a partial bind was
supplied, the execute-failure throw when no bind at all was supplied)
rather than executing. -/
theorem bind_count_and_execute (P : Nat) (vs : List Value) :
    (bindMany (initPS P) vs).params = vs ∧
    (vs.length = P →
      psExecute (bindMany (initPS P) vs) = .ok () ∧
      ∀ a, psExecuteUpdate (bindMany (initPS P) vs) a = .ok a) ∧
    (vs.length < P →
      psExecute (bindMany (initPS P) vs) =
        .error (if vs.isEmpty then .executeFailed else .bindMismatch) ∧
      ∀ a, psExecuteUpdate (bindMany (initPS P) vs) a =
        .error (if vs.isEmpty then .executeFailed else .bindMismatch)) :=
  bindExec_spec P vs

/-- Witness for C7: a statement with two parameters executes after two
binds and fails with the bind mismatch after one bind. -/
theorem bind_count_and_execute_witness :
    psExecute (bindMany (initPS 2) [Value.int32 1, Value.text "x"]) = .ok () ∧
    psExecute (bindMany (initPS 2) [Value.int32 1]) = .error .bindMismatch :=
  ⟨((bind_count_and_execute 2 [Value.int32 1, Value.text "x"]).2.1 rfl).1,
   ((bind_count_and_execute 2 [Value.int32 1]).2.2 (by decide)).1⟩

/-- Helper: occurrence counting distributes over string concatenation. -/
theorem countChar_append (c : Char) (a b : String) :
    countChar c (a ++ b) = countChar c a + countChar c b := by
  simp [countChar, String.data_append, List.count_append]

/-- Helper: joining a nonempty tail prepends the head and one
delimiter. -/
theorem dbJoin_cons (x : String) (xs : List String) (d : String) (h : xs ≠ []) :
    dbJoin (x :: xs) d = x ++ d ++ dbJoin xs d := by
  cases xs with
  | nil => exact absurd rfl h
  | cons y ys => rfl

/-- Helper: a join of pieces free of a character is free of it. -/
theorem countChar_dbJoin_zero (c : Char) (d : String) (hd : countChar c d = 0)
    (l : List String) (h : ∀ x ∈ l, countChar c x = 0) :
    countChar c (dbJoin l d) = 0 := by
  induction l with
  | nil => simp [dbJoin, countChar]
  | cons x xs ih =>
    cases xs with
    | nil =>
      simpa [dbJoin] using h x (by simp)
    | cons y ys =>
      rw [dbJoin_cons x (y :: ys) d (by simp), countChar_append, countChar_append]
      rw [h x (by simp), hd, ih (fun z hz => h z (List.mem_cons_of_mem _ hz))]

/-- Helper: the join of `n` copies of a group holds `n` times the
group's occurrences of a character absent from the delimiter. -/
theorem countChar_dbJoin_replicate (c : Char) (g d : String) (hd : countChar c d = 0)
    (n : Nat) : countChar c (dbJoin (List.replicate n g) d) = n * countChar c g := by
  induction n with
  | zero => simp [dbJoin, countChar]
  | succ n ih =>
    cases n with
    | zero => simp [dbJoin]
    | succ m =>
      rw [List.replicate_succ]
      rw [dbJoin_cons g (List.replicate (m + 1) g) d (by simp)]
      rw [countChar_append, countChar_append, hd, ih]
      ring

/-- Helper: one placeholder group carries exactly one `?` per column. -/
theorem countChar_placeholderGroup (n : Nat) :
    countChar '?' (placeholderGroup n) = n := by
  have h1 : countChar '?' "(" = 0 := by decide
  have h2 : countChar '?' ")" = 0 := by decide
  have h3 : countChar '?' "?" = 1 := by decide
  rw [placeholderGroup, countChar_append, countChar_append,
    countChar_dbJoin_replicate '?' "?" ", " (by decide), h1, h2, h3]
  ring

/-- Helper: the built INSERT statement carries `rows * columns` many
placeholders when table and column names are placeholder-free. -/
theorem countChar_batchInsertSQL (table : String) (columns : List String) (n : Nat)
    (ht : countChar '?' table = 0) (hc : ∀ c ∈ columns, countChar '?' c = 0) :
    countChar '?' (batchInsertSQL table columns n) = n * columns.length := by
  rw [batchInsertSQL]
  rw [countChar_append, countChar_append, countChar_append, countChar_append,
    countChar_append]
  rw [ht, countChar_dbJoin_zero '?' ", " (by decide) columns hc]
  rw [countChar_dbJoin_replicate '?' (placeholderGroup columns.length) ", " (by decide)]
  rw [countChar_placeholderGroup]
  have h1 : countChar '?' "INSERT INTO " = 0 := by decide
  have h2 : countChar '?' " (" = 0 := by decide
  have h3 : countChar '?' ") VALUES " = 0 := by decide
  rw [h1, h2, h3]
  ring

/-- Helper: flattening uniformly sized rows yields rows-times-columns
cells. -/
theorem flatten_length_uniform (rows : List (List Value)) (c : Nat)
    (h : ∀ r ∈ rows, r.length = c) :
    rows.flatten.length = rows.length * c := by
  induction rows with
  | nil => simp
  | cons r rs ih =>
    rw [List.flatten_cons, List.length_append, h r (by simp),
      ih (fun x hx => h x (List.mem_cons_of_mem _ hx)), List.length_cons]
    ring

/-- C8: for a table name, a column list of width C, and N uniformly
C-wide rows (names placeholder-free, as SQL identifiers are),
`batchInsert` builds exactly one INSERT statement whose text carries
N*C placeholders (N groups of C), binds the N*C cells row-major
(`rows.flatten`), executes it once and reports the driver's
affected-row count for an N-row insert; an empty row container returns
zero with no database operation. -/
theorem batchInsert_one_statement (table : String) (columns : List String)
    (rows : List (List Value))
    (hne : rows ≠ [])
    (hw : ∀ r ∈ rows, r.length = columns.length)
    (ht : countChar '?' table = 0)
    (hc : ∀ c ∈ columns, countChar '?' c = 0) :
    batchInsert table columns rows =
      (.ok rows.length, some ⟨batchInsertSQL table columns rows.length, rows.flatten⟩) ∧
    rows.flatten.length = rows.length * columns.length ∧
    countChar '?' (batchInsertSQL table columns rows.length) =
      rows.length * columns.length ∧
    batchInsert table columns [] = (.ok 0, none) := by
  have hflat := flatten_length_uniform rows columns.length hw
  have hcount := countChar_batchInsertSQL table columns rows.length ht hc
  have hP : stmtParamCount (batchInsertSQL table columns rows.length) =
      rows.length * columns.length := hcount
  have hni : rows.isEmpty = false := by
    cases rows with
    | nil => exact absurd rfl hne
    | cons r rs => rfl
  have hexec : psExecuteUpdate
      (bindMany (initPS (stmtParamCount (batchInsertSQL table columns rows.length)))
        rows.flatten) rows.length = .ok rows.length := by
    rcases bindExec_spec
        (stmtParamCount (batchInsertSQL table columns rows.length)) rows.flatten with
      ⟨hp, hok, hfew⟩
    have hlen : rows.flatten.length =
        stmtParamCount (batchInsertSQL table columns rows.length) := by
      rw [hflat, hP]
    exact (hok hlen).2 rows.length
  refine ⟨?_, hflat, hcount, by simp [batchInsert]⟩
  simp [batchInsert, hni, hexec, driverInsertAffected]

/-- Witness for C8: 3 rows and 2 columns give one statement with 6
placeholders, 6 bound parameters in row-major order, and affected-rows
3. -/
theorem batchInsert_one_statement_witness :
    batchInsert "t" ["a", "b"]
        [[Value.int32 1, Value.int32 2], [Value.int32 3, Value.int32 4],
         [Value.int32 5, Value.int32 6]] =
      (.ok 3, some ⟨batchInsertSQL "t" ["a", "b"] 3,
        [[Value.int32 1, Value.int32 2], [Value.int32 3, Value.int32 4],
         [Value.int32 5, Value.int32 6]].flatten⟩) ∧
    countChar '?' (batchInsertSQL "t" ["a", "b"] 3) = 6 :=
  ⟨(batchInsert_one_statement "t" ["a", "b"]
      [[Value.int32 1, Value.int32 2], [Value.int32 3, Value.int32 4],
       [Value.int32 5, Value.int32 6]]
      (by decide) (by decide) (by decide) (by decide)).1,
   (batchInsert_one_statement "t" ["a", "b"]
      [[Value.int32 1, Value.int32 2], [Value.int32 3, Value.int32 4],
       [Value.int32 5, Value.int32 6]]
      (by decide) (by decide) (by decide) (by decide)).2.2.1⟩
